import Mathlib

/-!
Verification of the BeckAPP bulk-data ingestion pipeline (etl-service).

This file gives a shallow embedding, in Lean 4, of the parts of the ETL
service that the specification's testable properties talk about:

* `app/core/retry_utils.py` — the retry engine (`retry_with_backoff`,
  `RetryConfig`) and the `ProgressTracker`;
* `app/core/smart_auth.py` — the access-token cache of
  `SMARTBackendAuth.get_access_token`;
* `app/api/bulk_data.py` — the manifest classification inside
  `poll_export_status`, the paginated `fetch_via_search` fallback,
  `resume_bulk_export` and `auto_transform_and_load`;
* `app/services/fhir_transformer.py` — `transform_patient` /
  `transform_file`;
* `app/services/database_loader.py` — `load_file` / `_load_patient`
  against the `patients` table of `backend/app/models/fhir_resources.py`
  (whose `fhir_id` column is UNIQUE and NOT NULL).

Python values that travel through the pipeline (JSON manifests, FHIR
resources, bundle pages) are modelled by the inductive type `JValue`.
Network I/O is modelled by passing the remote server's responses as an
explicit argument; exceptions are modelled with `Except` or with outcome
inductives; wall-clock time is passed explicitly.
-/

namespace BeckETL

/-- model of a JSON value as produced by `response.json()` / `json.loads`;
objects keep their fields as an association list in insertion order. -/
inductive JValue where
  | null
  | bool (b : Bool)
  | num (n : Int)
  | str (s : String)
  | arr (elems : List JValue)
  | obj (fields : List (String × JValue))

/-- first binding of a key in an association list, as a Python `dict` lookup. -/
def lookupField : List (String × JValue) → String → Option JValue
  | [], _ => none
  | (k, v) :: rest, key => if k = key then some v else lookupField rest key

/-- model of Python `d.get(key)` on a dict: `none` when the key is absent
(and on non-dict values, which the pipeline never feeds to `.get`). -/
def JValue.get? : JValue → String → Option JValue
  | .obj fields, key => lookupField fields key
  | _, _ => none

/-- model of Python truthiness of a JSON value (`if resource:` etc.). -/
def jTruthy : JValue → Bool
  | .null => false
  | .bool b => b
  | .num n => n != 0
  | .str s => !(s == "")
  | .arr xs => !xs.isEmpty
  | .obj fs => !fs.isEmpty

/-- elements of a JSON list, `[]` for anything else — model of
`result.get(key, [])` followed by iteration. -/
def jElems : Option JValue → List JValue
  | some (.arr xs) => xs
  | _ => []

/-- characters of a string lowercased, model of Python `str.lower()`
(ASCII letters; the pipeline's markers are ASCII). -/
def strLower (s : String) : String := ⟨s.data.map Char.toLower⟩

/-- does `hay` begin with `needle`? (over character lists). -/
def charsBeginWith : List Char → List Char → Bool
  | _, [] => true
  | [], _ :: _ => false
  | h :: hs, n :: ns => h == n && charsBeginWith hs ns

/-- does `hay` contain `needle` as a contiguous run? (over character lists). -/
def charsContain : List Char → List Char → Bool
  | hay, needle =>
    charsBeginWith hay needle ||
      match hay with
      | [] => false
      | _ :: t => charsContain t needle

/-- model of Python `needle in hay` on strings. -/
def strContains (hay needle : String) : Bool := charsContain hay.data needle.data

/-- the `"too many files" in str(error_msg).lower()` test of
`poll_export_status` (bulk_data.py lines 320 and 383). -/
def tooManyFilesIn (text : String) : Bool := strContains (strLower text) "too many files"

example : tooManyFilesIn "Export aborted: Too Many Files created" = true := by decide
example : tooManyFilesIn "server exploded" = false := by decide

/-! ## Retry engine — `app/core/retry_utils.py` -/

/-- model of a Python exception as the retry engine classifies it: only its
class name matters (`isinstance` against `config.retryable_exceptions`). -/
structure PyExn where
  cls : String
deriving Repr, DecidableEq

/-- `RetryConfig` of retry_utils.py (lines 14-59); the delay fields do not
influence control flow and are omitted. -/
structure RetryConfig where
  maxAttempts : Nat
  retryableStatusCodes : List Int
  retryableExceptions : List String
deriving Repr, DecidableEq

/-- default retryable status codes (retry_utils.py lines 43-50). -/
def defaultRetryableStatusCodes : List Int := [408, 429, 500, 502, 503, 504]

/-- default retryable exception classes (retry_utils.py lines 53-59). -/
def defaultRetryableExceptions : List String :=
  ["TimeoutException", "NetworkError", "RemoteProtocolError", "ConnectError", "TimeoutError"]

/-- a `RetryConfig()` built with all defaults (`max_attempts = 5`). -/
def RetryConfig.defaults : RetryConfig :=
  { maxAttempts := 5
    retryableStatusCodes := defaultRetryableStatusCodes
    retryableExceptions := defaultRetryableExceptions }

/-- `settings.RETRY_MAX_ATTEMPTS` (config.py line 24, default `5`). -/
def RETRY_MAX_ATTEMPTS : Nat := 5

/-- `RETRY_CONFIG_NETWORK` of bulk_data.py lines 46-50. -/
def RETRY_CONFIG_NETWORK : RetryConfig :=
  { maxAttempts := RETRY_MAX_ATTEMPTS
    retryableStatusCodes := defaultRetryableStatusCodes
    retryableExceptions := defaultRetryableExceptions }

/-- `RETRY_CONFIG_DOWNLOAD` of bulk_data.py lines 52-56: the download
budget is `settings.RETRY_MAX_ATTEMPTS + 2`. -/
def RETRY_CONFIG_DOWNLOAD : RetryConfig :=
  { maxAttempts := RETRY_MAX_ATTEMPTS + 2
    retryableStatusCodes := defaultRetryableStatusCodes
    retryableExceptions := defaultRetryableExceptions }

/-- `RetryConfig.should_retry` (retry_utils.py lines 66-79) on the
status-code path. -/
def RetryConfig.shouldRetryStatus (cfg : RetryConfig) (attempt : Nat) (status : Int) : Bool :=
  decide (attempt < cfg.maxAttempts) && cfg.retryableStatusCodes.contains status

/-- `RetryConfig.should_retry` (retry_utils.py lines 66-79) on the
exception path. -/
def RetryConfig.shouldRetryExn (cfg : RetryConfig) (attempt : Nat) (e : PyExn) : Bool :=
  decide (attempt < cfg.maxAttempts) && cfg.retryableExceptions.contains e.cls

/-- outcome of one invocation of the wrapped callable: an HTTP response
carrying a status code, a plain value without a `status_code` attribute,
or a raised exception. -/
inductive AttemptOutcome where
  | response (status : Int)
  | plain
  | exnRaised (e : PyExn)
deriving Repr, DecidableEq

/-- observable result of the whole `retry_with_backoff` wrapper. The
`raiseNoneTypeError` constructor models the exhaustion path executing
`raise last_error` while `last_error` is still `None`, which Python turns
into a `TypeError`. -/
inductive RetryResult where
  | returnedResponse (status : Int)
  | returnedPlain
  | raised (e : PyExn)
  | raiseNoneTypeError
deriving Repr, DecidableEq

/-- the `raise last_error` at the exhaustion of the loop (retry_utils.py
line 146): raising `None` is a `TypeError` in Python. -/
def exhaustRaise : Option PyExn → RetryResult
  | some e => .raised e
  | none => .raiseNoneTypeError

/-- the `while attempt < config.max_attempts` loop of `retry_with_backoff`
(retry_utils.py lines 97-146). The successive outcomes of invoking the
wrapped callable are supplied by `outcomes`; invocation `i` of the
callable happens with `attempt = i`. The second component counts how many
times the wrapped callable was invoked from this point on. -/
def retryLoop (cfg : RetryConfig) (outcomes : Nat → AttemptOutcome)
    (attempt : Nat) (lastError : Option PyExn) : RetryResult × Nat :=
  if _h : attempt < cfg.maxAttempts then
    match outcomes attempt with
    | .response s =>
      if cfg.shouldRetryStatus attempt s then
        ((retryLoop cfg outcomes (attempt + 1) lastError).1,
         (retryLoop cfg outcomes (attempt + 1) lastError).2 + 1)
      else
        (.returnedResponse s, 1)
    | .plain => (.returnedPlain, 1)
    | .exnRaised e =>
      if cfg.shouldRetryExn attempt e then
        ((retryLoop cfg outcomes (attempt + 1) (some e)).1,
         (retryLoop cfg outcomes (attempt + 1) (some e)).2 + 1)
      else
        (.raised e, 1)
  else
    (exhaustRaise lastError, 0)
termination_by cfg.maxAttempts - attempt
decreasing_by all_goals (simp_wf; omega)

/-- `retry_with_backoff(config)` applied to a callable, starting with
`attempt = 0` and `last_error = None` (retry_utils.py lines 97-99). -/
def retryWithBackoff (cfg : RetryConfig) (outcomes : Nat → AttemptOutcome) : RetryResult × Nat :=
  retryLoop cfg outcomes 0 none

theorem retryLoop_count_le (cfg : RetryConfig) (outcomes : Nat → AttemptOutcome) :
    ∀ n attempt lastError, cfg.maxAttempts - attempt ≤ n →
      (retryLoop cfg outcomes attempt lastError).2 ≤ cfg.maxAttempts - attempt := by
  intro n
  induction n with
  | zero =>
    intro attempt lastError hle
    rw [retryLoop]
    split
    · next h => exact absurd h (by omega)
    · exact Nat.zero_le _
  | succ n ih =>
    intro attempt lastError hle
    rw [retryLoop]
    split
    · next h =>
      have hrec : ∀ le2, (retryLoop cfg outcomes (attempt + 1) le2).2 ≤
          cfg.maxAttempts - (attempt + 1) := fun le2 => ih (attempt + 1) le2 (by omega)
      split
      · split
        · have := hrec lastError
          simp only []
          omega
        · omega
      · omega
      · next e heq =>
        split
        · have := hrec (some e)
          simp only []
          omega
        · omega
    · exact Nat.zero_le _

theorem retryLoop_all_retryable (cfg : RetryConfig) (outcomes : Nat → AttemptOutcome)
    (hall : ∀ i, i < cfg.maxAttempts →
      ∃ s, outcomes i = .response s ∧ cfg.retryableStatusCodes.contains s = true) :
    ∀ n attempt, cfg.maxAttempts - attempt ≤ n →
      retryLoop cfg outcomes attempt none =
        (.raiseNoneTypeError, cfg.maxAttempts - attempt) := by
  intro n
  induction n with
  | zero =>
    intro attempt hle
    rw [retryLoop]
    split
    · next h => exact absurd h (by omega)
    · have : cfg.maxAttempts - attempt = 0 := by omega
      rw [this]
      rfl
  | succ n ih =>
    intro attempt hle
    rw [retryLoop]
    split
    · next h =>
      rcases hall attempt h with ⟨s, hs, hmem⟩
      rw [hs]
      simp only [RetryConfig.shouldRetryStatus, decide_eq_true h, hmem,
        Bool.and_self, if_true]
      rw [ih (attempt + 1) (by omega)]
      have : cfg.maxAttempts - (attempt + 1) + 1 = cfg.maxAttempts - attempt := by omega
      rw [this]
    · next h =>
      have h0 : cfg.maxAttempts - attempt = 0 := by omega
      rw [h0]
      rfl

/-- C2: for every single logical call wrapped by the retry engine, the
wrapped callable is invoked at most `max_attempts` times regardless of how
the attempts fail; the default configuration allows 5 attempts, the
network configuration uses `settings.RETRY_MAX_ATTEMPTS` (5) and the file
downloader widens its budget to `max_attempts + 2`. The loop model is a
total function, so the retry loop terminates whenever each individual
attempt does. -/
theorem retry_invocations_bounded (cfg : RetryConfig) (outcomes : Nat → AttemptOutcome) :
    (retryWithBackoff cfg outcomes).2 ≤ cfg.maxAttempts ∧
    RetryConfig.defaults.maxAttempts = 5 ∧
    RETRY_CONFIG_NETWORK.maxAttempts = RETRY_MAX_ATTEMPTS ∧
    RETRY_CONFIG_DOWNLOAD.maxAttempts = RETRY_MAX_ATTEMPTS + 2 := by
  refine ⟨?_, rfl, rfl, rfl⟩
  have h := retryLoop_count_le cfg outcomes cfg.maxAttempts 0 none (by omega)
  simpa [retryWithBackoff] using h

/-- C9: when every one of the `max_attempts` invocations returns an HTTP
response whose status code is retryable (and none raises), the wrapper
reaches the exhaustion path with `last_error` still `None` and executes
`raise last_error` on `None`: the caller observes a `TypeError`, not the
final response and not a transport error; exactly `max_attempts`
invocations happen. -/
theorem retry_all_retryable_raises_none (cfg : RetryConfig) (outcomes : Nat → AttemptOutcome)
    (hall : ∀ i, i < cfg.maxAttempts →
      ∃ s, outcomes i = .response s ∧ cfg.retryableStatusCodes.contains s = true) :
    retryWithBackoff cfg outcomes = (.raiseNoneTypeError, cfg.maxAttempts) := by
  have h := retryLoop_all_retryable cfg outcomes hall cfg.maxAttempts 0 (by omega)
  simpa [retryWithBackoff] using h

/-- witness for C9: five straight HTTP 503 responses under the network
retry configuration end in the `raise None` `TypeError` after exactly 5
invocations. -/
theorem retry_all_retryable_raises_none_witness :
    retryWithBackoff RETRY_CONFIG_NETWORK (fun _ => .response 503) =
      (.raiseNoneTypeError, 5) :=
  retry_all_retryable_raises_none RETRY_CONFIG_NETWORK (fun _ => .response 503)
    (fun _ _ => ⟨503, rfl, by decide⟩)

/-! ## Progress tracker — `app/core/retry_utils.py` lines 152-205 -/

/-- state of a `ProgressTracker`; the start time is factored out: the
elapsed wall-clock time is passed to the operations that read it. -/
structure ProgressTracker where
  total : Nat
  current : Nat
  logInterval : Nat
  lastLoggedPercent : Int
deriving Repr, DecidableEq

/-- `ProgressTracker.update` (retry_utils.py lines 171-197): increment the
counter, return early when `total == 0`, otherwise compute the percentage
and decide whether to emit a log line. The returned Bool records whether a
line was logged. The model is a total function: no branch divides by zero
(`elapsed / current` is guarded by `current > 0`, the percentage by the
early return). -/
def ProgressTracker.update (t : ProgressTracker) (increment : Nat) : ProgressTracker × Bool :=
  let cur := t.current + increment
  if t.total = 0 then
    ({ t with current := cur }, false)
  else
    let percent : Rat := (cur : Rat) / (t.total : Rat) * 100
    if percent - (t.lastLoggedPercent : Rat) ≥ (t.logInterval : Rat) ∨ cur ≥ t.total then
      ({ t with current := cur,
                lastLoggedPercent := ⌊percent / (t.logInterval : Rat)⌋ * t.logInterval }, true)
    else
      ({ t with current := cur }, false)

/-- result of `ProgressTracker.complete`: either the logged mean per-item
cost, or the `ZeroDivisionError` that `elapsed / self.total` raises. -/
inductive CompleteResult where
  | logged (perItem : Rat)
  | zeroDivisionError
deriving Repr, DecidableEq

/-- `ProgressTracker.complete` (retry_utils.py lines 199-205): always
computes `elapsed / self.total`, which raises `ZeroDivisionError` when the
tracker was constructed with `total = 0`. -/
def ProgressTracker.complete (t : ProgressTracker) (elapsed : Rat) : CompleteResult :=
  if t.total = 0 then .zeroDivisionError
  else .logged (elapsed / (t.total : Rat))

/-- C10: with `total = 0` every `update` returns without logging (and
without error), only incrementing the counter, while `complete` always
raises `ZeroDivisionError`; with `total > 0`, `complete` never raises. -/
theorem progress_tracker_zero_total (t u : ProgressTracker) (elapsed : Rat) (inc : Nat)
    (ht : t.total = 0) (hu : 0 < u.total) :
    (t.update inc).2 = false ∧
    (t.update inc).1 = { t with current := t.current + inc } ∧
    t.complete elapsed = .zeroDivisionError ∧
    u.complete elapsed = .logged (elapsed / (u.total : Rat)) := by
  have hu0 : ¬ u.total = 0 := by omega
  refine ⟨?_, ?_, ?_, ?_⟩ <;>
    simp [ProgressTracker.update, ProgressTracker.complete, ht, hu0]

/-- witness for C10 at a zero-total tracker and a three-item tracker. -/
theorem progress_tracker_zero_total_witness :
    ((⟨0, 0, 10, 0⟩ : ProgressTracker).update 1).2 = false ∧
    ((⟨0, 0, 10, 0⟩ : ProgressTracker).update 1).1 =
      { (⟨0, 0, 10, 0⟩ : ProgressTracker) with current := 0 + 1 } ∧
    (⟨0, 0, 10, 0⟩ : ProgressTracker).complete 7 = .zeroDivisionError ∧
    (⟨3, 0, 10, 0⟩ : ProgressTracker).complete 7 = .logged (7 / ((3 : Nat) : Rat)) :=
  progress_tracker_zero_total ⟨0, 0, 10, 0⟩ ⟨3, 0, 10, 0⟩ 7 1 rfl (by decide)

/-! ## SMART Backend Services token cache — `app/core/smart_auth.py` lines 292-357 -/

/-- the mutable token cache of a `SMARTBackendAuth` instance:
`self.access_token` and `self.token_expiry` (seconds timeline; the
`datetime` arithmetic of the source is carried out on an integer clock). -/
structure AuthState where
  accessToken : Option String
  tokenExpiry : Option Int
deriving Repr, DecidableEq

/-- what the token endpoint answers when `get_access_token` POSTs to it. -/
inductive TokenEndpointResponse where
  | httpOk (accessToken : String) (expiresIn : Option Int)
  | httpError (status : Int) (body : String)
  | requestError (msg : String)
deriving Repr, DecidableEq

/-- observable outcome of `get_access_token`: the returned token together
with the cache state afterwards, or the raised auth `Exception`. -/
inductive TokenOutcome where
  | ok (token : String) (st : AuthState)
  | authError (msg : String)
deriving Repr, DecidableEq

/-- the non-cached tail of `get_access_token` (smart_auth.py lines
308-357): POST the assertion, on HTTP 200 cache the token with lifetime
`expires_in` (default 300 when absent) and return it, otherwise raise. -/
def fetchToken (now : Int) (resp : TokenEndpointResponse) : TokenOutcome :=
  match resp with
  | .httpOk tok expIn =>
    let expiresIn := expIn.getD 300
    .ok tok { accessToken := some tok, tokenExpiry := some (now + expiresIn) }
  | .httpError status body =>
    .authError ("Failed to get access token: " ++ toString status ++ " - " ++ body)
  | .requestError msg => .authError ("Network error: " ++ msg)

/-- `SMARTBackendAuth.get_access_token` (smart_auth.py lines 292-357):
return the cached token when `self.access_token` and `self.token_expiry`
are truthy and `now < token_expiry - 60 s`, else fetch a fresh one. -/
def getAccessToken (st : AuthState) (now : Int) (resp : TokenEndpointResponse) : TokenOutcome :=
  match st.accessToken, st.tokenExpiry with
  | some t, some e =>
    if !(t == "") && decide (now < e - 60) then .ok t st
    else fetchToken now resp
  | _, _ => fetchToken now resp

/-- counterexample to C3 as stated: with an empty cache at `now = 0` and a
server-supplied lifetime `expires_in = 30`, the freshly fetched token is
returned with recorded expiry 30, i.e. within 60 s of its expiry. -/
theorem token_short_lifetime_counterexample :
    getAccessToken ⟨none, none⟩ 0 (.httpOk "tok" (some 30)) =
      .ok "tok" ⟨some "tok", some 30⟩ ∧ ¬ ((0 : Int) < 30 - 60) :=
  ⟨rfl, by decide⟩

/-- C3 (amended): a cached token is returned only when
`now < token_expiry - 60 s`, and a freshly fetched token also satisfies
this at the moment it is returned provided the server-supplied lifetime
(defaulted to 300 s when absent) exceeds 60 s; so under that proviso every
token `get_access_token` returns is more than 60 s from its recorded
expiry. -/
theorem token_never_within_60s_of_expiry (st : AuthState) (now : Int)
    (resp : TokenEndpointResponse) (t : String) (st2 : AuthState)
    (hfresh : ∀ tok expIn, resp = .httpOk tok expIn → 60 < expIn.getD 300)
    (hret : getAccessToken st now resp = .ok t st2) :
    ∃ e, st2.tokenExpiry = some e ∧ now < e - 60 := by
  unfold getAccessToken at hret
  split at hret
  · next t0 e0 ha he =>
    split at hret
    · next hcond =>
      rcases hret with ⟨⟩
      refine ⟨e0, ?_, ?_⟩
      · exact he.symm ▸ rfl
      · have := (Bool.and_eq_true _ _).mp hcond
        exact of_decide_eq_true this.2
    · next =>
      unfold fetchToken at hret
      cases hresp : resp with
      | httpOk tok expIn =>
        rw [hresp] at hret
        rcases hret with ⟨⟩
        exact ⟨now + expIn.getD 300, rfl, by have := hfresh _ _ hresp; omega⟩
      | httpError s b => rw [hresp] at hret; cases hret
      | requestError m => rw [hresp] at hret; cases hret
  · next =>
    unfold fetchToken at hret
    cases hresp : resp with
    | httpOk tok expIn =>
      rw [hresp] at hret
      rcases hret with ⟨⟩
      exact ⟨now + expIn.getD 300, rfl, by have := hfresh _ _ hresp; omega⟩
    | httpError s b => rw [hresp] at hret; cases hret
    | requestError m => rw [hresp] at hret; cases hret

/-- witness for the amended C3: an empty cache at `now = 0`, the server
omitting `expires_in` (default 300), yields a token expiring at 300,
comfortably past the 60 s guard. -/
theorem token_never_within_60s_of_expiry_witness :
    ∃ e, (AuthState.mk (some "tok") (some 300)).tokenExpiry = some e ∧ (0 : Int) < e - 60 :=
  token_never_within_60s_of_expiry ⟨none, none⟩ 0 (.httpOk "tok" none) "tok"
    ⟨some "tok", some 300⟩
    (by intro tok expIn h; injection h with h1 h2; subst h2; decide) rfl

/-! ## Manifest classification in `poll_export_status` — `app/api/bulk_data.py` lines 264-413 -/

/-- an ASCII single quote, written by code point. -/
def squote : String := String.singleton (Char.ofNat 39)

/-- an ASCII opening curly bracket, written by code point. -/
def curlyOpen : String := String.singleton (Char.ofNat 123)

/-- an ASCII closing curly bracket, written by code point. -/
def curlyClose : String := String.singleton (Char.ofNat 125)

/-- model of Python `repr()` on a JSON-shaped value (what `str()` uses for
the elements of containers): strings quoted, containers bracketed with
comma-space separators. Escaping inside strings is not modelled (the
pipeline's error strings contain no quotes). -/
def pyRepr : JValue → String
  | .null => "None"
  | .bool true => "True"
  | .bool false => "False"
  | .num n => toString n
  | .str s => squote ++ s ++ squote
  | .arr xs => "[" ++ String.intercalate ", " (xs.attach.map (fun x => pyRepr x.1)) ++ "]"
  | .obj fs =>
    curlyOpen ++
      String.intercalate ", "
        (fs.attach.map (fun kv => squote ++ kv.1.1 ++ squote ++ ": " ++ pyRepr kv.1.2)) ++
      curlyClose
decreasing_by
· simp_wf
  have h := List.sizeOf_lt_of_mem x.2
  omega
· simp_wf
  obtain ⟨⟨k, v⟩, hmem⟩ := kv
  have h := List.sizeOf_lt_of_mem hmem
  simp at h ⊢
  omega

/-- model of Python `str(v)` as `poll_export_status` applies it to the
manifest's `error` field and `OperationOutcome`: the string itself for
strings, `repr`-style rendering for everything else. -/
def pyStr : JValue → String
  | .str s => s
  | v => pyRepr v

/-- the real-error test of bulk_data.py lines 300-307: the `error` value
is a real error when it is a string that is truthy and strips to
something truthy, or a list/dict with positive length; every other shape
(including numbers and booleans) fails the `isinstance` checks. -/
def isRealError : JValue → Bool
  | .str s => s.data.any (fun c => !c.isWhitespace)
  | .arr xs => !xs.isEmpty
  | .obj fs => !fs.isEmpty
  | _ => false

/-- outcome of scanning a 200-manifest for errors (bulk_data.py lines
296-314): `has_error` plus the stored `error_msg`, which an
`OperationOutcome` overwrites when present. -/
structure ErrorCheck where
  hasError : Bool
  errorMsg : Option String
deriving Repr, DecidableEq

/-- the error-detection block of `poll_export_status` on an HTTP 200
manifest (bulk_data.py lines 296-314). -/
def checkManifestError (result : JValue) : ErrorCheck :=
  let fromField :=
    match result.get? "error" with
    | some v => if isRealError v then some (pyStr v) else none
    | none => none
  match result.get? "OperationOutcome" with
  | some oo => { hasError := true, errorMsg := some (pyStr oo) }
  | none =>
    match fromField with
    | some m => { hasError := true, errorMsg := some m }
    | none => { hasError := false, errorMsg := none }

/-- the fields of a job entry in the in-memory `jobs` dict that the
polling and resume paths read or write. Timestamps (`started_at`,
`completed_at`) and the stored raw manifest are not modelled. -/
structure Job where
  status : String
  method : String
  statusUrl : Option String
  fhirServerUrl : Option String
  resourceTypes : Option (List String)
  headers : List (String × String)
  errorText : Option String
  message : Option String
  fileCount : Option Nat
deriving Repr, DecidableEq

/-- Python truthiness of an optional string field read with `.get` (absent
gives `None`, and an empty string is falsy too). -/
def truthyStrOpt : Option String → Bool
  | some s => !(s == "")
  | none => false

/-- Python truthiness of an optional list field read with `.get`. -/
def truthyListOpt : Option (List String) → Bool
  | some l => !l.isEmpty
  | none => false

/-- what `poll_export_status` does next after handling an HTTP 200
manifest: invoke `fetch_via_search` in place, stop with the job failed, or
advance to the download phase. -/
inductive PollAction where
  | fallbackInvoked
  | stoppedFailed
  | proceedToDownload
deriving Repr, DecidableEq

/-- the HTTP 200 branch of `poll_export_status` (bulk_data.py lines
291-362) up to the point where it either invokes the fallback, marks the
job failed, or enters the download phase: returns the job entry as mutated
at that point together with the action taken. -/
def handleManifest200 (job : Job) (result : JValue) : Job × PollAction :=
  let chk := checkManifestError result
  if chk.hasError then
    let msg := chk.errorMsg.getD ""
    if tooManyFilesIn msg then
      if truthyStrOpt job.fhirServerUrl && truthyListOpt job.resourceTypes then
        ({ job with status := "in-progress", method := "fhir_search",
                    message := some "Bulk export failed, using FHIR search fallback" },
         .fallbackInvoked)
      else
        ({ job with status := "failed", errorText := chk.errorMsg }, .stoppedFailed)
    else
      ({ job with status := "failed", errorText := chk.errorMsg }, .stoppedFailed)
  else
    ({ job with status := "downloading", fileCount := some (jElems (result.get? "output")).length },
     .proceedToDownload)

/-- a job entry as the resume path creates it (bulk_data.py lines
244-250): no `fhir_server_url` and no `resource_types` are stored. -/
def resumedJobNoInfo : Job :=
  { status := "in-progress", method := "bulk_export_resumed",
    statusUrl := some "http://fhir.example.org/exports/abc123",
    fhirServerUrl := none, resourceTypes := none,
    headers := [("Accept", "application/fhir+json")],
    errorText := none, message := none, fileCount := none }

/-- a job entry as kick-off creates it for an accepted bulk export
(bulk_data.py lines 156-164). -/
def kickoffJobExample : Job :=
  { status := "in-progress", method := "bulk_export",
    statusUrl := some "http://fhir.example.org/exports/abc123",
    fhirServerUrl := some "http://fhir.example.org",
    resourceTypes := some ["Patient"],
    headers := [("Accept", "application/fhir+json")],
    errorText := none, message := none, fileCount := none }

/-- a 200 manifest carrying the too-many-files error text. -/
def tooManyFilesManifest : JValue :=
  .obj [("error", .str "Export aborted: too many files")]

/-- counterexample to C1 as stated: for a job created by the resume path
(whose record stores neither `fhir_server_url` nor `resource_types`), an
HTTP 200 manifest whose error text contains "too many files" does NOT
switch the method to `fhir_search` and does NOT invoke the search
fallback: the job is marked failed and polling stops. -/
theorem poll_too_many_files_counterexample :
    (handleManifest200 resumedJobNoInfo tooManyFilesManifest).2 = .stoppedFailed ∧
    (handleManifest200 resumedJobNoInfo tooManyFilesManifest).1.method =
      "bulk_export_resumed" ∧
    (handleManifest200 resumedJobNoInfo tooManyFilesManifest).1.status = "failed" := by
  refine ⟨?_, ?_, ?_⟩ <;> decide

/-- C1 (amended): on an HTTP 200 manifest with a real error, if the error
text contains "too many files" case-insensitively AND the job's record
holds a truthy `fhir_server_url` and non-empty `resource_types` (kick-off
jobs do, resumed jobs do not), then the job's method is switched to
`fhir_search`, its status stays `in-progress`, and the search fallback is
invoked in place; in every other case — too-many-files without that
recorded info, or any other real error — the job's status is set to
`failed` with the server's error text stored, and polling stops. -/
theorem poll_manifest_error_handling (job : Job) (m : JValue) (msg : String)
    (he : (checkManifestError m).hasError = true)
    (hm : (checkManifestError m).errorMsg = some msg) :
    (tooManyFilesIn msg = true →
      (truthyStrOpt job.fhirServerUrl && truthyListOpt job.resourceTypes) = true →
      handleManifest200 job m =
        ({ job with status := "in-progress", method := "fhir_search",
                    message := some "Bulk export failed, using FHIR search fallback" },
         .fallbackInvoked)) ∧
    (tooManyFilesIn msg = true →
      (truthyStrOpt job.fhirServerUrl && truthyListOpt job.resourceTypes) = false →
      handleManifest200 job m =
        ({ job with status := "failed", errorText := some msg }, .stoppedFailed)) ∧
    (tooManyFilesIn msg = false →
      handleManifest200 job m =
        ({ job with status := "failed", errorText := some msg }, .stoppedFailed)) := by
  refine ⟨fun h1 h2 => ?_, fun h1 h2 => ?_, fun h1 => ?_⟩ <;>
    simp [handleManifest200, he, hm, h1, *]

/-- witness for the amended C1: a kick-off job receiving the
too-many-files manifest switches to the search fallback in place. -/
theorem poll_manifest_error_handling_witness :
    handleManifest200 kickoffJobExample tooManyFilesManifest =
      ({ kickoffJobExample with status := "in-progress", method := "fhir_search",
                                message := some "Bulk export failed, using FHIR search fallback" },
       .fallbackInvoked) :=
  (poll_manifest_error_handling kickoffJobExample tooManyFilesManifest
      "Export aborted: too many files" (by decide) rfl).1 (by decide) (by decide)

/-- a 200 manifest whose `error` field is the empty string, with one
output file and no `OperationOutcome`. -/
def emptyErrorManifest : JValue :=
  .obj [("error", .str ""),
        ("output", .arr [.obj [("type", .str "Patient"),
                               ("url", .str "http://fhir.example.org/files/1")]])]

/-- C4: a 200 manifest whose `error` field is the empty string (likewise
an empty list or empty dict), with no `OperationOutcome`, is classified as
success: the job proceeds to the downloading phase instead of being
marked failed. -/
theorem manifest_empty_error_is_success (job : Job) (m : JValue)
    (he : m.get? "error" = some (.str "") ∨ m.get? "error" = some (.arr []) ∨
          m.get? "error" = some (.obj []))
    (ho : m.get? "OperationOutcome" = none) :
    (handleManifest200 job m).2 = .proceedToDownload ∧
    (handleManifest200 job m).1.status = "downloading" := by
  have hchk : checkManifestError m = { hasError := false, errorMsg := none } := by
    unfold checkManifestError
    rw [ho]
    rcases he with h | h | h <;> rw [h] <;> rfl
  constructor <;> simp [handleManifest200, hchk]

/-- witness for C4: the `error: ""` manifest above sends a kick-off job to
the downloading phase. -/
theorem manifest_empty_error_is_success_witness :
    (handleManifest200 kickoffJobExample emptyErrorManifest).2 = .proceedToDownload ∧
    (handleManifest200 kickoffJobExample emptyErrorManifest).1.status = "downloading" :=
  manifest_empty_error_is_success kickoffJobExample emptyErrorManifest
    (Or.inl rfl) rfl

/-! ## Search-paginated fallback — `fetch_via_search`, bulk_data.py lines 625-761 -/

/-- an HTTP response to one search request in the fallback path: its
status code and parsed JSON bundle. -/
structure PageResponse where
  statusCode : Int
  body : JValue

/-- `bundle.get("entry", [])` (bulk_data.py line 685). -/
def bundleEntries (b : JValue) : List JValue := jElems (b.get? "entry")

/-- the entry-extraction loop of bulk_data.py lines 691-694: collect
`entry.get("resource")` for each entry, keeping only truthy values. -/
def entryResources (entries : List JValue) : List JValue :=
  entries.filterMap (fun e =>
    match e.get? "resource" with
    | some r => if jTruthy r then some r else none
    | none => none)

/-- the next-link scan of bulk_data.py lines 699-703: the `url` value of
the first link whose `relation` equals `"next"`. -/
def firstNextUrl : List JValue → Option JValue
  | [] => none
  | l :: ls =>
    match l.get? "relation" with
    | some (.str r) => if r == "next" then l.get? "url" else firstNextUrl ls
    | _ => firstNextUrl ls

/-- the next URL actually followed: the scanned link value when it is a
truthy string (`if not next_link: break` treats `None` and `""` as stop;
link URLs are JSON strings on the wire). -/
def nextUrlOf (b : JValue) : Option String :=
  match firstNextUrl (jElems (b.get? "link")) with
  | some (.str s) => if s == "" then none else some s
  | _ => none

/-- `max_pages = 10` (bulk_data.py line 669). -/
def maxPages : Nat := 10

/-- the `while page_count < max_pages` pagination loop of
`fetch_via_search` for one resource type (bulk_data.py lines 671-718).
`server` supplies the response to each request (URL plus query params);
the result is the accumulated resource list and the number of pages
fetched from this point on. `page_count` is incremented only when a next
link is followed, exactly as in the source, so at most
`maxPages - pageCount` further pages are requested. -/
def searchPages (server : String → List (String × String) → PageResponse)
    (url : String) (params : List (String × String)) (pageCount : Nat)
    (acc : List JValue) : List JValue × Nat :=
  if _h : pageCount < maxPages then
    let resp := server url params
    if resp.statusCode == 200 then
      let entries := bundleEntries resp.body
      if entries.isEmpty then (acc, 1)
      else
        match nextUrlOf resp.body with
        | some nu =>
          ((searchPages server nu [] (pageCount + 1) (acc ++ entryResources entries)).1,
           (searchPages server nu [] (pageCount + 1) (acc ++ entryResources entries)).2 + 1)
        | none => (acc ++ entryResources entries, 1)
    else (acc, 1)
  else (acc, 0)
termination_by maxPages - pageCount
decreasing_by all_goals (simp_wf; omega)

/-- one resource type of `fetch_via_search` (bulk_data.py lines 657-718):
initial URL `{fhir_server_url}/{resource_type}`, params `_count=100` plus
`_lastUpdated=ge<since>` when `since` is given, starting at page count 0
with an empty accumulator. -/
def fetchTypeViaSearch (server : String → List (String × String) → PageResponse)
    (fhirServerUrl resourceType : String) (since : Option String) : List JValue × Nat :=
  let params := [("_count", "100")] ++
    (match since with
     | some s => [("_lastUpdated", "ge" ++ s)]
     | none => [])
  searchPages server (fhirServerUrl ++ "/" ++ resourceType) params 0 []

theorem searchPages_count_le (server : String → List (String × String) → PageResponse) :
    ∀ n url params pageCount acc, maxPages - pageCount ≤ n →
      (searchPages server url params pageCount acc).2 ≤ maxPages - pageCount := by
  intro n
  induction n with
  | zero =>
    intro url params pageCount acc hle
    rw [searchPages]
    split
    · next h => exact absurd h (by omega)
    · exact Nat.zero_le _
  | succ n ih =>
    intro url params pageCount acc hle
    rw [searchPages]
    split
    · next h =>
      dsimp only
      split
      · split
        · omega
        · split
          · next nu heq =>
            have := ih nu [] (pageCount + 1)
              (acc ++ entryResources (bundleEntries (server url params).body)) (by omega)
            simp only []
            omega
          · omega
      · omega
    · exact Nat.zero_le _

theorem searchPages_len_le (server : String → List (String × String) → PageResponse)
    (hk : ∀ u p, (entryResources (bundleEntries (server u p).body)).length ≤ 100) :
    ∀ n url params pageCount acc, maxPages - pageCount ≤ n →
      (searchPages server url params pageCount acc).1.length ≤
        acc.length + 100 * (maxPages - pageCount) := by
  intro n
  induction n with
  | zero =>
    intro url params pageCount acc hle
    rw [searchPages]
    split
    · next h => exact absurd h (by omega)
    · simp
  | succ n ih =>
    intro url params pageCount acc hle
    rw [searchPages]
    split
    · next h =>
      dsimp only
      split
      · split
        · simp only []
          omega
        · split
          · next nu heq =>
            have hrec := ih nu [] (pageCount + 1)
              (acc ++ entryResources (bundleEntries (server url params).body)) (by omega)
            have hlen := hk url params
            simp only [List.length_append] at hrec
            simp only []
            omega
          · have hlen := hk url params
            simp only [List.length_append]
            omega
      · simp only []
        omega
    · simp only []
      omega

/-- C6: for every resource type fetched by the search fallback, at most 10
bundle pages are requested even when every page carries a `next` link, so
with `_count=100` (at most 100 resources per page) at most 1000 resources
are accumulated; and iteration stops after the current page as soon as a
response has a non-200 status, an empty `entry` list, or no followable
`next` link. -/
theorem fetch_via_search_page_cap (server : String → List (String × String) → PageResponse)
    (base ty : String) (since : Option String) :
    (fetchTypeViaSearch server base ty since).2 ≤ 10 ∧
    ((∀ u p, (entryResources (bundleEntries (server u p).body)).length ≤ 100) →
      (fetchTypeViaSearch server base ty since).1.length ≤ 1000) ∧
    (∀ url params pc acc, pc < maxPages → ¬ (server url params).statusCode = 200 →
      searchPages server url params pc acc = (acc, 1)) ∧
    (∀ url params pc acc, pc < maxPages → (server url params).statusCode = 200 →
      bundleEntries (server url params).body = [] →
      searchPages server url params pc acc = (acc, 1)) ∧
    (∀ url params pc acc, pc < maxPages → (server url params).statusCode = 200 →
      bundleEntries (server url params).body ≠ [] →
      nextUrlOf (server url params).body = none →
      searchPages server url params pc acc =
        (acc ++ entryResources (bundleEntries (server url params).body), 1)) := by
  refine ⟨?_, ?_, ?_, ?_, ?_⟩
  · have := searchPages_count_le server maxPages (base ++ "/" ++ ty)
      ([("_count", "100")] ++
        (match since with
         | some s => [("_lastUpdated", "ge" ++ s)]
         | none => [])) 0 [] (by omega)
    simpa [fetchTypeViaSearch, maxPages] using this
  · intro hk
    have := searchPages_len_le server hk maxPages (base ++ "/" ++ ty)
      ([("_count", "100")] ++
        (match since with
         | some s => [("_lastUpdated", "ge" ++ s)]
         | none => [])) 0 [] (by omega)
    simpa [fetchTypeViaSearch, maxPages] using this
  · intro url params pc acc hpc hstatus
    rw [searchPages, dif_pos hpc]
    dsimp only
    simp [beq_iff_eq, hstatus]
  · intro url params pc acc hpc hstatus hempty
    rw [searchPages, dif_pos hpc]
    dsimp only
    simp [beq_iff_eq, hstatus, hempty]
  · intro url params pc acc hpc hstatus hne hnext
    rw [searchPages, dif_pos hpc]
    dsimp only
    simp [beq_iff_eq, hstatus, List.isEmpty_iff, hne, hnext]

/-- a bundle page with one Patient resource and a `next` link. -/
def bundleWithNext : JValue :=
  .obj [("resourceType", .str "Bundle"),
        ("entry", .arr [.obj [("resource",
            .obj [("resourceType", .str "Patient"), ("id", .str "p1")])]]),
        ("link", .arr [.obj [("relation", .str "next"),
                             ("url", .str "http://fhir.example.org/page2")]])]

/-- a server that answers every request with `bundleWithNext`: pagination
would never stop on its own. -/
def serverAlwaysNext : String → List (String × String) → PageResponse :=
  fun _ _ => ⟨200, bundleWithNext⟩

/-- a server that answers every request with HTTP 404. -/
def serverNotFound : String → List (String × String) → PageResponse :=
  fun _ _ => ⟨404, .obj []⟩

/-- a server whose bundles carry no entries. -/
def serverNoEntries : String → List (String × String) → PageResponse :=
  fun _ _ => ⟨200, .obj [("entry", .arr [])]⟩

/-- a server whose bundle has one entry and no `next` link. -/
def serverLastPage : String → List (String × String) → PageResponse :=
  fun _ _ => ⟨200, .obj [("entry", .arr [.obj [("resource",
      .obj [("resourceType", .str "Patient"), ("id", .str "p2")])]])]⟩

/-- witness for C6: a never-ending server stays within 10 pages and 1000
resources; a 404, an empty page, and a page without `next` each stop the
iteration after one fetch. -/
theorem fetch_via_search_page_cap_witness :
    (fetchTypeViaSearch serverAlwaysNext "http://fhir.example.org" "Patient" none).2 ≤ 10 ∧
    (fetchTypeViaSearch serverAlwaysNext "http://fhir.example.org" "Patient" none).1.length ≤
      1000 ∧
    searchPages serverNotFound "u" [] 0 [] = ([], 1) ∧
    searchPages serverNoEntries "u" [] 0 [] = ([], 1) ∧
    searchPages serverLastPage "u" [] 0 [] =
      ([] ++ entryResources (bundleEntries (serverLastPage "u" []).body), 1) :=
  ⟨(fetch_via_search_page_cap serverAlwaysNext "http://fhir.example.org" "Patient" none).1,
   (fetch_via_search_page_cap serverAlwaysNext "http://fhir.example.org" "Patient" none).2.1
     (fun _ _ =>
       (by decide :
         (entryResources (bundleEntries
           ((⟨200, bundleWithNext⟩ : PageResponse)).body)).length ≤ 100)),
   (fetch_via_search_page_cap serverNotFound "x" "y" none).2.2.1 "u" [] 0 []
     (by decide) (by decide),
   (fetch_via_search_page_cap serverNoEntries "x" "y" none).2.2.2.1 "u" [] 0 []
     (by decide) rfl rfl,
   (fetch_via_search_page_cap serverLastPage "x" "y" none).2.2.2.2 "u" [] 0 []
     (by decide) rfl (List.cons_ne_nil _ _) rfl⟩

/-! ## Transform and load counting — `transform_file`, `load_file`, `auto_transform_and_load` -/

/-- per-file result of `FHIRTransformer.transform_file`
(fhir_transformer.py lines 20-56): the `processed` and `failed` counts
plus the records written to the output JSON file. -/
structure TransformResult (α : Type) where
  processed : Nat
  failed : Nat
  records : List α

/-- the line loop of `transform_file` (fhir_transformer.py lines 32-42):
each line either yields a transformed record (`some row`, appended and
counted as processed — the transformer's result dict is always non-empty,
hence truthy) or raises during parse/transform (`none`, counted failed). -/
def transformFileRun {α : Type} : List (Option α) → TransformResult α
  | [] => { processed := 0, failed := 0, records := [] }
  | none :: rest =>
    let r := transformFileRun rest
    { processed := r.processed, failed := r.failed + 1, records := r.records }
  | some row :: rest =>
    let r := transformFileRun rest
    { processed := r.processed + 1, failed := r.failed, records := row :: r.records }

/-- the per-row loop of `DatabaseLoader.load_file` (database_loader.py
lines 30-45): each row increments `loaded` unless its upsert raises, in
which case `failed` is incremented and the loop continues; `rowOk` says
whether the upsert of a row succeeds. Returns `(loaded, failed)`. -/
def loadRows {α : Type} (rowOk : α → Bool) : List α → Nat × Nat
  | [] => (0, 0)
  | r :: rest =>
    let p := loadRows rowOk rest
    if rowOk r then (p.1 + 1, p.2) else (p.1, p.2 + 1)

/-- one resource type inside `auto_transform_and_load` (bulk_data.py lines
583-607): the NDJSON file may be missing, the transform may raise, or the
transform runs over its lines and the subsequent `load_file` either
commits (returning counts) or raises, e.g. on commit failure. -/
inductive TypeStep (α : Type) where
  | fileMissing
  | transformRaised
  | ran (lines : List (Option α)) (rowOk : α → Bool) (commitOk : Bool)

/-- the `for resource_type in resource_types` loop of
`auto_transform_and_load` (bulk_data.py lines 583-607), returning the
job's `(records_transformed, records_loaded)` totals: a missing file or a
raising transform touches neither counter; a raising load keeps the
already-added transformed count but adds nothing to loaded. -/
def autoTransformAndLoad {α : Type} : List (TypeStep α) → Nat × Nat
  | [] => (0, 0)
  | .fileMissing :: rest => autoTransformAndLoad rest
  | .transformRaised :: rest => autoTransformAndLoad rest
  | .ran lines rowOk commitOk :: rest =>
    let t := transformFileRun lines
    let tail := autoTransformAndLoad rest
    if commitOk then
      (t.processed + tail.1, (loadRows rowOk t.records).1 + tail.2)
    else
      (t.processed + tail.1, tail.2)

/-- the per-file transformed count of one step. -/
def stepTransformed {α : Type} : TypeStep α → Nat
  | .fileMissing => 0
  | .transformRaised => 0
  | .ran lines _ _ => (transformFileRun lines).processed

/-- the per-file loaded count of one step. -/
def stepLoaded {α : Type} : TypeStep α → Nat
  | .fileMissing => 0
  | .transformRaised => 0
  | .ran lines rowOk commitOk =>
    if commitOk then (loadRows rowOk (transformFileRun lines).records).1 else 0

theorem transformFileRun_records_length {α : Type} (lines : List (Option α)) :
    (transformFileRun lines).records.length = (transformFileRun lines).processed := by
  induction lines with
  | nil => rfl
  | cons l rest ih =>
    cases l <;> simp [transformFileRun, ih]

theorem loadRows_loaded_le {α : Type} (rowOk : α → Bool) (records : List α) :
    (loadRows rowOk records).1 ≤ records.length := by
  induction records with
  | nil => simp [loadRows]
  | cons r rest ih =>
    by_cases h : rowOk r <;> simp [loadRows, h] <;> omega

theorem stepLoaded_le_stepTransformed {α : Type} (s : TypeStep α) :
    stepLoaded s ≤ stepTransformed s := by
  cases s with
  | fileMissing => exact Nat.le_refl _
  | transformRaised => exact Nat.le_refl _
  | ran lines rowOk commitOk =>
    cases commitOk with
    | false => simp [stepLoaded, stepTransformed]
    | true =>
      simp only [stepLoaded, stepTransformed, if_true]
      calc (loadRows rowOk (transformFileRun lines).records).1
          ≤ (transformFileRun lines).records.length := loadRows_loaded_le _ _
        _ = (transformFileRun lines).processed := transformFileRun_records_length _

/-- C7: the job totals computed by `auto_transform_and_load` satisfy
`records_loaded ≤ records_transformed` on every run; for each transformed
file the loader's loaded count never exceeds the number of records the
transformer wrote into that file; and the job totals are exactly the sums
of the per-file counts. -/
theorem records_loaded_le_transformed {α : Type} (steps : List (TypeStep α)) :
    (autoTransformAndLoad steps).2 ≤ (autoTransformAndLoad steps).1 ∧
    (∀ (lines : List (Option α)) (rowOk : α → Bool),
      (loadRows rowOk (transformFileRun lines).records).1 ≤
        (transformFileRun lines).processed) ∧
    autoTransformAndLoad steps =
      ((steps.map stepTransformed).sum, (steps.map stepLoaded).sum) := by
  have hsum : ∀ (l : List (TypeStep α)),
      autoTransformAndLoad l = ((l.map stepTransformed).sum, (l.map stepLoaded).sum) := by
    intro l
    induction l with
    | nil => rfl
    | cons s rest ih =>
      cases s with
      | fileMissing => simp [autoTransformAndLoad, stepTransformed, stepLoaded, ih]
      | transformRaised => simp [autoTransformAndLoad, stepTransformed, stepLoaded, ih]
      | ran lines rowOk commitOk =>
        cases commitOk <;>
          simp [autoTransformAndLoad, stepTransformed, stepLoaded, ih, Prod.ext_iff]
  refine ⟨?_, ?_, hsum steps⟩
  · rw [hsum steps]
    simp only []
    exact List.sum_le_sum (fun s _ => stepLoaded_le_stepTransformed s)
  · intro lines rowOk
    calc (loadRows rowOk (transformFileRun lines).records).1
        ≤ (transformFileRun lines).records.length := loadRows_loaded_le _ _
      _ = (transformFileRun lines).processed := transformFileRun_records_length _

/-! ## Patient transform and load — `fhir_transformer.py`, `database_loader.py` -/

/-- Python `.get(key)` on a value that must be a dict: any other shape
raises `AttributeError`. -/
def pyGet (v : JValue) (key : String) : Except String (Option JValue) :=
  match v with
  | .obj fs => .ok (lookupField fs key)
  | _ => .error "AttributeError"

/-- the row `transform_patient` builds (fhir_transformer.py lines 58-71):
each canonical field holds the value of the corresponding `.get`, so an
absent source field is `none` (Python `None`). -/
structure PatientRow where
  fhir_id : Option JValue
  identifier : Option JValue
  name : Option JValue
  gender : Option JValue
  birth_date : Option JValue
  address : Option JValue
  telecom : Option JValue
  marital_status : Option JValue
  raw_data : JValue

/-- `FHIRTransformer.transform_patient` (fhir_transformer.py lines 58-71):
every field is `resource.get(...)` — which raises `AttributeError` unless
the resource is a dict — and `marital_status` is
`resource.get("maritalStatus", {}).get("text")`, which additionally
raises when a present `maritalStatus` value is not a dict. -/
def transform_patient (resource : JValue) : Except String PatientRow :=
  match resource with
  | .obj fs =>
    match pyGet ((lookupField fs "maritalStatus").getD (.obj [])) "text" with
    | .ok msText =>
      .ok { fhir_id := lookupField fs "id"
            identifier := lookupField fs "identifier"
            name := lookupField fs "name"
            gender := lookupField fs "gender"
            birth_date := lookupField fs "birthDate"
            address := lookupField fs "address"
            telecom := lookupField fs "telecom"
            marital_status := msText
            raw_data := .obj fs }
    | .error e => .error e
  | _ => .error "AttributeError"

/-- does a transformed row carry a non-empty string `fhir_id`? -/
def rowHasNonEmptyFhirId (r : PatientRow) : Bool :=
  match r.fhir_id with
  | some (.str s) => !(s == "")
  | _ => false

/-- `transform_file` over a Patient NDJSON file: `none` lines fail JSON
parsing, `some resource` lines are parsed values fed to
`transform_patient`; a raising transform counts as failed, a returned
(always truthy) row is appended and counted as processed. -/
def transformPatientFile (lines : List (Option JValue)) : TransformResult PatientRow :=
  transformFileRun (lines.map (fun l =>
    match l with
    | none => none
    | some res =>
      match transform_patient res with
      | .ok row => some row
      | .error _ => none))

/-- a row of the `patients` table
(backend/app/models/fhir_resources.py lines 5-21): the `fhir_id` column is
UNIQUE and NOT NULL; the remaining bound columns are carried as the
transformed row, plus the owning `job_id`. -/
structure PatientTableRow where
  fhir_id : String
  data : PatientRow
  job_id : Option String

/-- the SQL parameter bound for `:fhir_id` by `_load_patient`: Python
`None` (absent field, i.e. JSON null) binds SQL NULL; a string binds
itself; any other JSON value goes through the driver's rendering. -/
def sqlStringOf : Option JValue → Option String
  | none => none
  | some .null => none
  | some (.str s) => some s
  | some v => some (pyStr v)

/-- `_load_patient` (database_loader.py lines 62-95): `INSERT ... ON
CONFLICT (fhir_id) DO UPDATE`. A NULL `fhir_id` violates the table's NOT
NULL constraint and raises; otherwise a conflicting row is updated in
place (mutable columns and `job_id` overwritten) or a fresh row is
appended. -/
def upsertPatient (table : List PatientTableRow) (record : PatientRow)
    (jobId : Option String) : Except String (List PatientTableRow) :=
  match sqlStringOf record.fhir_id with
  | none => .error "NotNullViolation: fhir_id"
  | some fid =>
    if table.any (fun r => r.fhir_id == fid) then
      .ok (table.map (fun r =>
        if r.fhir_id == fid then { fhir_id := fid, data := record, job_id := jobId } else r))
    else
      .ok (table ++ [{ fhir_id := fid, data := record, job_id := jobId }])

/-- a Patient resource whose `id` field is absent. -/
def patientNoId : JValue :=
  .obj [("resourceType", .str "Patient"), ("gender", .str "female")]

/-- the row `transform_patient` produces for `patientNoId`. -/
def patientRowNoId : PatientRow :=
  { fhir_id := none, identifier := none, name := none,
    gender := some (.str "female"), birth_date := none, address := none,
    telecom := none, marital_status := none, raw_data := patientNoId }

/-- counterexample to C5 as stated: a record whose `id` field is absent is
still transformed into a row (counted as processed) whose `fhir_id` is
null — not a non-empty `fhir_id` — and the loader's upsert of that row is
rejected by the NOT NULL constraint instead of storing it. -/
theorem transform_null_fhir_id_counterexample :
    transform_patient patientNoId = .ok patientRowNoId ∧
    rowHasNonEmptyFhirId patientRowNoId = false ∧
    (transformPatientFile [some patientNoId]).processed = 1 ∧
    upsertPatient [] patientRowNoId (some "job1") = .error "NotNullViolation: fhir_id" :=
  ⟨rfl, rfl, rfl, rfl⟩

/-- C5 (amended): every row the transformer produces carries
`fhir_id = resource.get("id")` verbatim, which is a non-empty string
whenever the source record's `id` is a non-empty string; a record with
absent (or null) `id` yields a null `fhir_id` whose upsert the NOT NULL
constraint rejects at load time; and the upsert keyed on `fhir_id` keeps
`fhir_id` unique per patients table. -/
theorem patient_fhir_id_integrity (resource : JValue) (row : PatientRow) (s : String)
    (hrow : transform_patient resource = .ok row) :
    (row.fhir_id = resource.get? "id") ∧
    (resource.get? "id" = some (.str s) → s ≠ "" → rowHasNonEmptyFhirId row = true) ∧
    (∀ table rec jid, sqlStringOf rec.fhir_id = none →
      upsertPatient table rec jid = .error "NotNullViolation: fhir_id") ∧
    (∀ table rec jid table2, (table.map (fun r => r.fhir_id)).Nodup →
      upsertPatient table rec jid = .ok table2 →
      (table2.map (fun r => r.fhir_id)).Nodup) := by
  have hfhir : row.fhir_id = resource.get? "id" := by
    cases resource with
    | obj fs =>
      simp only [transform_patient] at hrow
      cases hms : pyGet ((lookupField fs "maritalStatus").getD (.obj [])) "text" with
      | ok msText =>
        rw [hms] at hrow
        injection hrow with hrow2
        subst hrow2
        rfl
      | error e =>
        rw [hms] at hrow
        simp at hrow
    | null => simp [transform_patient] at hrow
    | bool b => simp [transform_patient] at hrow
    | num n => simp [transform_patient] at hrow
    | str t => simp [transform_patient] at hrow
    | arr xs => simp [transform_patient] at hrow
  refine ⟨hfhir, ?_, ?_, ?_⟩
  · intro hid hs
    have hfid : row.fhir_id = some (.str s) := by rw [hfhir, hid]
    simp [rowHasNonEmptyFhirId, hfid, hs]
  · intro table rec jid hnull
    unfold upsertPatient
    rw [hnull]
  · intro table rec jid table2 hnodup hup
    unfold upsertPatient at hup
    cases hfid : sqlStringOf rec.fhir_id with
    | none => rw [hfid] at hup; cases hup
    | some fid =>
      rw [hfid] at hup
      dsimp only at hup
      by_cases hany : (table.any fun r => r.fhir_id == fid) = true
      · rw [if_pos hany] at hup
        rcases hup with ⟨⟩
        have hkeys : (table.map (fun r =>
            if r.fhir_id == fid then
              ({ fhir_id := fid, data := rec, job_id := jid } : PatientTableRow)
            else r)).map (fun r => r.fhir_id) = table.map (fun r => r.fhir_id) := by
          rw [List.map_map]
          refine List.map_congr_left ?_
          intro r _
          simp only [Function.comp_apply]
          by_cases h : r.fhir_id == fid
          · rw [if_pos h]
            exact (eq_of_beq h).symm
          · rw [if_neg h]
        rw [hkeys]
        exact hnodup
      · rw [if_neg hany] at hup
        rcases hup with ⟨⟩
        rw [List.map_append]
        rw [List.nodup_append]
        refine ⟨hnodup, List.nodup_singleton _, ?_⟩
        intro a ha hb
        simp only [List.map_cons, List.map_nil, List.mem_singleton] at hb
        subst hb
        rcases List.mem_map.mp ha with ⟨r, hr, hfidr⟩
        exact hany (List.any_eq_true.mpr ⟨r, hr, by simp [hfidr]⟩)

/-- a Patient resource with a non-empty string `id`. -/
def patientWithId : JValue := .obj [("id", .str "p7")]

/-- the row `transform_patient` produces for `patientWithId`. -/
def patientRowWithId : PatientRow :=
  { fhir_id := some (.str "p7"), identifier := none, name := none, gender := none,
    birth_date := none, address := none, telecom := none, marital_status := none,
    raw_data := patientWithId }

/-- a pre-existing `patients` row keyed `p1`, for witness tables. -/
def tableRowP1 : PatientTableRow :=
  { fhir_id := "p1", data := patientRowWithId, job_id := some "job0" }

/-- witness for the amended C5: the `id = "p7"` record yields a non-empty
`fhir_id`, the null-id row is rejected by NOT NULL, and upserting into a
table keyed `p1` keeps the key column duplicate-free. -/
theorem patient_fhir_id_integrity_witness :
    (patientRowWithId.fhir_id = patientWithId.get? "id") ∧
    rowHasNonEmptyFhirId patientRowWithId = true ∧
    upsertPatient [] patientRowNoId (some "job1") = .error "NotNullViolation: fhir_id" ∧
    (([tableRowP1, ⟨"p7", patientRowWithId, some "job2"⟩].map
        (fun r => r.fhir_id)).Nodup) := by
  have T := patient_fhir_id_integrity patientWithId patientRowWithId "p7" rfl
  exact ⟨T.1, T.2.1 rfl (by decide), T.2.2.1 [] patientRowNoId (some "job1") rfl,
         T.2.2.2 [tableRowP1] patientRowWithId (some "job2")
           [tableRowP1, ⟨"p7", patientRowWithId, some "job2"⟩] (by decide) rfl⟩

/-! ## Resume — `resume_bulk_export`, bulk_data.py lines 209-262 -/

/-- Python `str.split(sep)` over character lists (always non-empty). -/
def splitChars (sep : Char) : List Char → List (List Char)
  | [] => [[]]
  | c :: cs =>
    let r := splitChars sep cs
    if c == sep then [] :: r
    else
      match r with
      | [] => [[c]]
      | g :: gs => (c :: g) :: gs

/-- Python `status_url.split("/")[-1]` (bulk_data.py line 224). -/
def lastUrlSegment (s : String) : String :=
  (((splitChars (Char.ofNat 47) s.data).map (fun l => (⟨l⟩ : String))).getLastD "")

/-- the derived id `"resume_" + status_url.split("/")[-1]`. -/
def resumeJobId (statusUrl : String) : String := "resume_" ++ lastUrlSegment statusUrl

/-- lookup in the in-memory `jobs` dict, modelled as an association list
in insertion order. -/
def lookupJob : List (String × Job) → String → Option Job
  | [], _ => none
  | (k, v) :: rest, key => if k = key then some v else lookupJob rest key

/-- headers built by `resume_bulk_export` (bulk_data.py lines 226-231). -/
def resumeHeaders : Option String → List (String × String)
  | some bearer =>
    [("Accept", "application/fhir+json"), ("Authorization", "Bearer " ++ bearer)]
  | none => [("Accept", "application/fhir+json")]

/-- the job entry `resume_bulk_export` creates (bulk_data.py lines
244-250): `method = "bulk_export_resumed"`, no `fhir_server_url`, no
`resource_types`. -/
def resumedJob (statusUrl : String) (bearer : Option String) : Job :=
  { status := "in-progress", method := "bulk_export_resumed",
    statusUrl := some statusUrl, fhirServerUrl := none, resourceTypes := none,
    headers := resumeHeaders bearer, errorText := none, message := none,
    fileCount := none }

/-- what one call of `resume_bulk_export` produces: the returned `job_id`,
the `jobs` dict afterwards, whether a background polling task was added,
and the `status` field of the response body. -/
structure ResumeOutcome where
  jobId : String
  jobsAfter : List (String × Job)
  pollingStarted : Bool
  responseStatus : String
deriving Repr, DecidableEq

/-- `resume_bulk_export` (bulk_data.py lines 209-262): derive the id from
the status URL; when a job with that id already exists, return it without
touching the dict and without scheduling polling; otherwise insert a new
`bulk_export_resumed` job and start polling. -/
def resume_bulk_export (jobs : List (String × Job)) (statusUrl : String)
    (bearer : Option String) : ResumeOutcome :=
  let jobId := resumeJobId statusUrl
  match lookupJob jobs jobId with
  | some _ =>
    { jobId := jobId, jobsAfter := jobs, pollingStarted := false,
      responseStatus := "resumed" }
  | none =>
    { jobId := jobId, jobsAfter := jobs ++ [(jobId, resumedJob statusUrl bearer)],
      pollingStarted := true, responseStatus := "resumed" }

theorem lookupJob_append_right (l1 l2 : List (String × Job)) (k : String)
    (h : lookupJob l1 k = none) : lookupJob (l1 ++ l2) k = lookupJob l2 k := by
  induction l1 with
  | nil => rfl
  | cons kv rest ih =>
    rcases kv with ⟨k0, v0⟩
    by_cases hk : k0 = k
    · rw [lookupJob, if_pos hk] at h
      cases h
    · rw [lookupJob, if_neg hk] at h
      rw [List.cons_append, lookupJob, if_neg hk]
      exact ih h

theorem resume_eq_of_found (jobs : List (String × Job)) (url : String)
    (b : Option String) (j : Job) (h : lookupJob jobs (resumeJobId url) = some j) :
    resume_bulk_export jobs url b =
      { jobId := resumeJobId url, jobsAfter := jobs, pollingStarted := false,
        responseStatus := "resumed" } := by
  unfold resume_bulk_export
  dsimp only
  rw [h]

theorem resume_eq_of_new (jobs : List (String × Job)) (url : String)
    (b : Option String) (h : lookupJob jobs (resumeJobId url) = none) :
    resume_bulk_export jobs url b =
      { jobId := resumeJobId url,
        jobsAfter := jobs ++ [(resumeJobId url, resumedJob url b)],
        pollingStarted := true, responseStatus := "resumed" } := by
  unfold resume_bulk_export
  dsimp only
  rw [h]

/-- C8: calling resume with a `status_url` whose derived job id already
exists is idempotent — a second call (with any bearer) returns the same
`job_id`, leaves the `jobs` dict exactly as it was, and starts no polling
task; a first call for an unknown derived id creates a job with method
`bulk_export_resumed` and begins polling. -/
theorem resume_idempotent (jobs : List (String × Job)) (url : String)
    (b b2 : Option String) :
    (resume_bulk_export (resume_bulk_export jobs url b).jobsAfter url b2).jobId =
      (resume_bulk_export jobs url b).jobId ∧
    (resume_bulk_export (resume_bulk_export jobs url b).jobsAfter url b2).jobsAfter =
      (resume_bulk_export jobs url b).jobsAfter ∧
    (resume_bulk_export (resume_bulk_export jobs url b).jobsAfter url b2).pollingStarted =
      false ∧
    (lookupJob jobs (resumeJobId url) = none →
      (resume_bulk_export jobs url b).pollingStarted = true ∧
      lookupJob (resume_bulk_export jobs url b).jobsAfter (resumeJobId url) =
        some (resumedJob url b)) := by
  cases hl : lookupJob jobs (resumeJobId url) with
  | some j =>
    have h1 := resume_eq_of_found jobs url b j hl
    rw [h1]
    dsimp only
    rw [resume_eq_of_found jobs url b2 j hl]
    refine ⟨rfl, rfl, rfl, ?_⟩
    intro hnone
    exact Option.noConfusion hnone
  | none =>
    have h1 := resume_eq_of_new jobs url b hl
    rw [h1]
    dsimp only
    have hl2 : lookupJob (jobs ++ [(resumeJobId url, resumedJob url b)])
        (resumeJobId url) = some (resumedJob url b) := by
      rw [lookupJob_append_right _ _ _ hl]
      rw [lookupJob, if_pos rfl]
    rw [resume_eq_of_found _ url b2 _ hl2]
    exact ⟨rfl, rfl, rfl, fun _ => ⟨rfl, hl2⟩⟩

/-- witness for C8: resuming `.../exports/xyz` twice on an empty registry
returns the same derived id `resume_xyz`, leaves the registry as after
the first call, starts polling only once, and the stored job has method
`bulk_export_resumed`. -/
theorem resume_idempotent_witness :
    (resume_bulk_export
        (resume_bulk_export [] "http://fhir.example.org/exports/xyz" (some "tkn")).jobsAfter
        "http://fhir.example.org/exports/xyz" none).jobId =
      (resume_bulk_export [] "http://fhir.example.org/exports/xyz" (some "tkn")).jobId ∧
    (resume_bulk_export
        (resume_bulk_export [] "http://fhir.example.org/exports/xyz" (some "tkn")).jobsAfter
        "http://fhir.example.org/exports/xyz" none).jobsAfter =
      (resume_bulk_export [] "http://fhir.example.org/exports/xyz" (some "tkn")).jobsAfter ∧
    (resume_bulk_export
        (resume_bulk_export [] "http://fhir.example.org/exports/xyz" (some "tkn")).jobsAfter
        "http://fhir.example.org/exports/xyz" none).pollingStarted = false ∧
    ((resume_bulk_export [] "http://fhir.example.org/exports/xyz" (some "tkn")).pollingStarted =
        true ∧
      lookupJob
        (resume_bulk_export [] "http://fhir.example.org/exports/xyz" (some "tkn")).jobsAfter
        (resumeJobId "http://fhir.example.org/exports/xyz") =
        some (resumedJob "http://fhir.example.org/exports/xyz" (some "tkn"))) := by
  have T := resume_idempotent [] "http://fhir.example.org/exports/xyz" (some "tkn") none
  exact ⟨T.1, T.2.1, T.2.2.1, T.2.2.2 rfl⟩

end BeckETL

